import Mathlib

/- A shallow embedding of the pyspaceweather client
   (pyspaceweather/pyspaceweather.py).  Pure Python routines become Lean
   functions; the single HTTP round trip performed by each endpoint method is
   abstracted by passing the `Response` that the transport would deliver as an
   explicit argument; every Python `raise` becomes an `Except` error value. -/

/-! ### Python datetime objects

Mirrors `datetime.datetime(year, month, day, hour, minute, second,
microsecond)`, timezone-naive, as used by the source. -/

structure DateTime where
  year : Nat
  month : Nat
  day : Nat
  hour : Nat
  minute : Nat
  second : Nat
  microsecond : Nat
deriving DecidableEq, Repr

def isLeapYear (y : Nat) : Bool :=
  (y % 4 == 0 && y % 100 != 0) || y % 400 == 0

def daysInMonth (y m : Nat) : Nat :=
  if m = 2 then (if isLeapYear y then 29 else 28)
  else if m = 4 ∨ m = 6 ∨ m = 9 ∨ m = 11 then 30
  else 31

/- The constructor ranges enforced by `datetime.datetime`; `MINYEAR = 1`,
   `MAXYEAR = 9999`. -/
def validDate (y m d : Nat) : Prop :=
  1 ≤ y ∧ y ≤ 9999 ∧ 1 ≤ m ∧ m ≤ 12 ∧ 1 ≤ d ∧ d ≤ daysInMonth y m

instance (y m d : Nat) : Decidable (validDate y m d) := by
  unfold validDate; infer_instance

/- All constructor range checks of a full `datetime.datetime` value. -/
def validDateTime (d : DateTime) : Prop :=
  validDate d.year d.month d.day ∧ d.hour ≤ 23 ∧ d.minute ≤ 59 ∧
    d.second ≤ 59 ∧ d.microsecond ≤ 999999

instance (d : DateTime) : Decidable (validDateTime d) := by
  unfold validDateTime; infer_instance

/-! ### CPython `_strptime` model

`datetime.strptime(s, fmt)` compiles `fmt` to a regular expression
(`Lib/_strptime.py`), matches it against the start of `s`, raises ValueError
on a failed match or on leftover input, and finally calls the `datetime`
constructor (which re-checks ranges, rejecting e.g. second 61).  The regex
fragments for the two formats used by the source are:

  %Y  \d\d\d\d          %m  1[0-2]|0[1-9]|[1-9]   %d  3[01]|[12]\d|0[1-9]|[1-9]
  %H  2[0-3]|[0-1]\d|\d  %M  [0-5]\d|\d            %S  6[0-1]|[0-5]\d|\d

and literal whitespace in the format matches one or more whitespace
characters.  For these formats the ordered alternations are deterministic
(after a two-digit alternative succeeds, the following literal separator is
never a digit, so regex backtracking can never rescue a failed continuation),
which the parsers below implement directly. -/

def isDigitChar (c : Char) : Prop := 48 ≤ c.toNat ∧ c.toNat ≤ 57

instance (c : Char) : Decidable (isDigitChar c) := by
  unfold isDigitChar; infer_instance

def digitVal (c : Char) : Nat := c.toNat - 48

def isSpaceChar (c : Char) : Prop :=
  c = (' ') ∨ c = ('\t') ∨ c = ('\n') ∨ c = ('\r') ∨
    c = (Char.ofNat 11) ∨ c = (Char.ofNat 12)

instance (c : Char) : Decidable (isSpaceChar c) := by
  unfold isSpaceChar; infer_instance

/- `%Y`: exactly four digits. -/
def parseYear : List Char → Option (Nat × List Char)
  | c0 :: c1 :: c2 :: c3 :: rest =>
    if isDigitChar c0 ∧ isDigitChar c1 ∧ isDigitChar c2 ∧ isDigitChar c3 then
      some (1000 * digitVal c0 + 100 * digitVal c1 + 10 * digitVal c2 +
        digitVal c3, rest)
    else none
  | _ => none

/- `%m`: `1[0-2]|0[1-9]|[1-9]`. -/
def parseMonth : List Char → Option (Nat × List Char)
  | c0 :: c1 :: rest =>
    if c0 = ('1') ∧ ('0') ≤ c1 ∧ c1 ≤ ('2') then some (10 + digitVal c1, rest)
    else if c0 = ('0') ∧ ('1') ≤ c1 ∧ c1 ≤ ('9') then some (digitVal c1, rest)
    else if ('1') ≤ c0 ∧ c0 ≤ ('9') then some (digitVal c0, c1 :: rest)
    else none
  | [c0] =>
    if ('1') ≤ c0 ∧ c0 ≤ ('9') then some (digitVal c0, []) else none
  | [] => none

/- `%d`: `3[01]|[12]\d|0[1-9]|[1-9]`. -/
def parseDay : List Char → Option (Nat × List Char)
  | c0 :: c1 :: rest =>
    if c0 = ('3') ∧ (c1 = ('0') ∨ c1 = ('1')) then some (30 + digitVal c1, rest)
    else if (('1') ≤ c0 ∧ c0 ≤ ('2')) ∧ isDigitChar c1 then
      some (10 * digitVal c0 + digitVal c1, rest)
    else if c0 = ('0') ∧ ('1') ≤ c1 ∧ c1 ≤ ('9') then some (digitVal c1, rest)
    else if ('1') ≤ c0 ∧ c0 ≤ ('9') then some (digitVal c0, c1 :: rest)
    else none
  | [c0] =>
    if ('1') ≤ c0 ∧ c0 ≤ ('9') then some (digitVal c0, []) else none
  | [] => none

/- `%H`: `2[0-3]|[0-1]\d|\d`. -/
def parseHour : List Char → Option (Nat × List Char)
  | c0 :: c1 :: rest =>
    if c0 = ('2') ∧ ('0') ≤ c1 ∧ c1 ≤ ('3') then some (20 + digitVal c1, rest)
    else if (c0 = ('0') ∨ c0 = ('1')) ∧ isDigitChar c1 then
      some (10 * digitVal c0 + digitVal c1, rest)
    else if isDigitChar c0 then some (digitVal c0, c1 :: rest)
    else none
  | [c0] => if isDigitChar c0 then some (digitVal c0, []) else none
  | [] => none

/- `%M`: `[0-5]\d|\d`. -/
def parseMinute : List Char → Option (Nat × List Char)
  | c0 :: c1 :: rest =>
    if (('0') ≤ c0 ∧ c0 ≤ ('5')) ∧ isDigitChar c1 then
      some (10 * digitVal c0 + digitVal c1, rest)
    else if isDigitChar c0 then some (digitVal c0, c1 :: rest)
    else none
  | [c0] => if isDigitChar c0 then some (digitVal c0, []) else none
  | [] => none

/- `%S`: `6[0-1]|[0-5]\d|\d` (60 and 61 pass the regex; the datetime
   constructor rejects them afterwards). -/
def parseSecond : List Char → Option (Nat × List Char)
  | c0 :: c1 :: rest =>
    if c0 = ('6') ∧ (c1 = ('0') ∨ c1 = ('1')) then some (60 + digitVal c1, rest)
    else if (('0') ≤ c0 ∧ c0 ≤ ('5')) ∧ isDigitChar c1 then
      some (10 * digitVal c0 + digitVal c1, rest)
    else if isDigitChar c0 then some (digitVal c0, c1 :: rest)
    else none
  | [c0] => if isDigitChar c0 then some (digitVal c0, []) else none
  | [] => none

/- An exact literal character of the format. -/
def parseLit (c : Char) : List Char → Option (List Char)
  | x :: rest => if x = c then some rest else none
  | [] => none

def skipSpaces : List Char → List Char
  | [] => []
  | c :: rest => if isSpaceChar c then skipSpaces rest else c :: rest

/- Literal whitespace in the format: `\s+` (one or more, greedy; the token
   that follows is always a digit, so greediness is exact). -/
def parseSpaces : List Char → Option (List Char)
  | c :: rest => if isSpaceChar c then some (skipSpaces rest) else none
  | [] => none

/- `datetime.strptime(s, "%Y-%m-%d %H:%M:%S")` as an Option (none = the
   ValueError raised on a regex mismatch, leftover input, or a constructor
   range failure). -/
def strptimeFull (s : String) : Option DateTime :=
  match parseYear s.toList with
  | none => none
  | some (y, l1) =>
  match parseLit ('-') l1 with
  | none => none
  | some l2 =>
  match parseMonth l2 with
  | none => none
  | some (mo, l3) =>
  match parseLit ('-') l3 with
  | none => none
  | some l4 =>
  match parseDay l4 with
  | none => none
  | some (d, l5) =>
  match parseSpaces l5 with
  | none => none
  | some l6 =>
  match parseHour l6 with
  | none => none
  | some (h, l7) =>
  match parseLit (':') l7 with
  | none => none
  | some l8 =>
  match parseMinute l8 with
  | none => none
  | some (mi, l9) =>
  match parseLit (':') l9 with
  | none => none
  | some (l10) =>
  match parseSecond l10 with
  | none => none
  | some (se, l11) =>
  match l11 with
  | [] =>
    if validDate y mo d ∧ h ≤ 23 ∧ mi ≤ 59 ∧ se ≤ 59 then
      some ⟨y, mo, d, h, mi, se, 0⟩
    else none
  | _ => none

/- `datetime.strptime(s, "%Y-%m-%d")`; the parsed value is midnight of the
   parsed day. -/
def strptimeDate (s : String) : Option DateTime :=
  match parseYear s.toList with
  | none => none
  | some (y, l1) =>
  match parseLit ('-') l1 with
  | none => none
  | some l2 =>
  match parseMonth l2 with
  | none => none
  | some (mo, l3) =>
  match parseLit ('-') l3 with
  | none => none
  | some l4 =>
  match parseDay l4 with
  | none => none
  | some (d, l5) =>
  match l5 with
  | [] => if validDate y mo d then some ⟨y, mo, d, 0, 0, 0, 0⟩ else none
  | _ => none

/-! ### `datetime.strftime` for the request format

`datetime.strftime(start, "%Y-%m-%d %H:%M:%S")` delegates to the platform C
library: `%m`, `%d`, `%H`, `%M` and `%S` are zero-padded to two digits, but
`%Y` prints the year as a plain decimal number with NO padding, so years
below 1000 yield fewer than four digits (year 50 prints as "50", which the
four-digit `%Y` of `strptime` then rejects); `%S` prints whole seconds,
silently dropping the microsecond component.  The two-digit fixed widths
are faithful on the whole domain of real `datetime` objects, whose
constructor enforces the `validDateTime` ranges. -/

def digitChar (n : Nat) : Char := Char.ofNat (48 + n)

def pad2 (n : Nat) : List Char := [digitChar (n / 10 % 10), digitChar (n % 10)]

def pad4 (n : Nat) : List Char :=
  [digitChar (n / 1000 % 10), digitChar (n / 100 % 10),
    digitChar (n / 10 % 10), digitChar (n % 10)]

/- Unpadded decimal printing of a natural number (`%Y`), most significant
   digit first.  The first argument is recursion fuel; the wrapper passes
   the number itself, which always suffices because a number needs at most
   as many division steps as its own value. -/
def natDigitsCore : Nat → Nat → List Char
  | 0, n => [digitChar n]
  | fuel + 1, n =>
    if n < 10 then [digitChar n]
    else natDigitsCore fuel (n / 10) ++ [digitChar (n % 10)]

def natDigits (n : Nat) : List Char := natDigitsCore n n

def strftimeFull (d : DateTime) : String :=
  ⟨natDigits d.year ++ ('-') :: (pad2 d.month ++ ('-') :: (pad2 d.day ++
    (' ') :: (pad2 d.hour ++ (':') :: (pad2 d.minute ++ (':') ::
      pad2 d.second))))⟩

/-! ### JSON values, HTTP responses and Python exceptions -/

/- The JSON values a decoded response body can take. -/
inductive Json where
  | null : Json
  | str : String → Json
  | int : Int → Json
  | arr : List Json → Json
  | obj : List (String × Json) → Json

/- Python truthiness, as tested by `if data := response.json()["data"]:`. -/
def Json.truthy : Json → Bool
  | .null => false
  | .str s => !(s == "")
  | .int n => !(n == 0)
  | .arr xs => !xs.isEmpty
  | .obj fs => !fs.isEmpty

/- The exceptions the source can raise, collapsed to their Python classes. -/
inductive PyError where
  | valueError : PyError
  | keyError : PyError
  | typeError : PyError
  | indexError : PyError
  | httpError : Json → PyError
  | httpStatusError : Nat → PyError
  | jsonDecodeError : PyError

/- One HTTP response as the `requests` transport delivers it; `body = none`
   models a body that `response.json()` cannot decode. -/
structure Response where
  status_code : Nat
  body : Option Json

/- `element[key]` on a decoded JSON value: a missing key raises KeyError,
   subscripting a non-object raises TypeError.  Returned as
   `.ok (some v)` / `.ok none` so callers can model their own KeyError
   handling (`try ... except KeyError`). -/
def Json.lookupField : Json → String → Except PyError (Option Json)
  | .obj fs, k => .ok (fs.lookup k)
  | _, _ => .error .typeError

/- `element[key]` where a missing key propagates as KeyError. -/
def getKey (el : Json) (k : String) : Except PyError Json :=
  match el.lookupField k with
  | .error e => .error e
  | .ok none => .error .keyError
  | .ok (some v) => .ok v

/- The shared `if response.status_code != 200: raise
   requests.HTTPError(response.json())` prologue of every endpoint method,
   followed by decoding the body (`response.json()`). -/
def checkStatus (r : Response) : Except PyError Json :=
  if r.status_code = 200 then
    match r.body with
    | some j => .ok j
    | none => .error .jsonDecodeError
  else
    match r.body with
    | some j => .error (.httpError j)
    | none => .error .jsonDecodeError

/- `response.json()["data"]`. -/
def getData (r : Response) : Except PyError Json :=
  match checkStatus r with
  | .error e => .error e
  | .ok body => getKey body ("data")

/-! ### Record types produced by the endpoints

The namedtuples of the source, with the loosely-typed pass-through fields
kept as JSON values.  A timestamp slot holds either a parsed datetime or
one of the two sentinels the source leaves behind for an absent key: the
initial `""` of `_get_aurora`'s `time_periods` dict, or the `None` stored
by `get_mag_alert` / `get_mag_warning`.  No constructor holds an unparsed
response string. -/

inductive TimeField where
  | parsed : DateTime → TimeField
  | emptyString : TimeField
  | pyNone : TimeField
deriving DecidableEq, Repr

/- Field names as in the source (its `AuroraOutlook` really does call the
   slot that receives `start_date` `start_time`). -/
structure AuroraOutlook where
  issue_time : TimeField
  start_time : TimeField
  end_date : TimeField
  cause : Json
  k_aus : Json
  lat_band : Json
  comments : Json

structure AuroraWatch where
  issue_time : TimeField
  start_date : TimeField
  end_date : TimeField
  cause : Json
  k_aus : Json
  lat_band : Json
  comments : Json

structure AuroraAlert where
  start_time : TimeField
  valid_until : TimeField
  k_aus : Json
  lat_band : Json
  description : Json

inductive AuroraRecord where
  | outlook : AuroraOutlook → AuroraRecord
  | watch : AuroraWatch → AuroraRecord
  | alert : AuroraAlert → AuroraRecord

structure MagAlert where
  start_time : TimeField
  valid_until : TimeField
  g_scale : Json
  description : Json

/- `activity` is the source's list of one-entry `dict`s, one per `activity`
   element, in input order; a one-entry dict is one (date, forecast) pair. -/
structure MagWarning where
  issue_time : TimeField
  start_date : TimeField
  end_date : TimeField
  cause : Json
  activity : List (DateTime × Json)
  comments : Json

structure AIndex where
  valid_time : DateTime
  index : Json

structure KIndex where
  valid_time : DateTime
  analysis_time : DateTime
  index : Json

structure DstIndex where
  valid_time : DateTime
  index : Json

inductive IndexRecord where
  | a : AIndex → IndexRecord
  | k : KIndex → IndexRecord
  | dst : DstIndex → IndexRecord

/-! ### `_get_aurora` (pyspaceweather.py lines 83-166) -/

inductive AuroraType where
  | outlook | watch | alert

/- One iteration of `_get_aurora`'s `time_periods` loop for one key:
   try the full format, on ValueError fall back to the date-only format, a
   ValueError from the fallback propagates; a KeyError (key not in the
   element) is caught by `pass`, leaving the `""` the dict was seeded with;
   a non-string value makes `strptime` raise TypeError (uncaught). -/
def parseTimeField (el : Json) (key : String) : Except PyError TimeField :=
  match el.lookupField key with
  | .error e => .error e
  | .ok none => .ok .emptyString
  | .ok (some (.str s)) =>
    match strptimeFull s with
    | some d => .ok (.parsed d)
    | none =>
      match strptimeDate s with
      | some d => .ok (.parsed d)
      | none => .error .valueError
  | .ok (some _) => .error .typeError

/- The body of `_get_aurora`'s element loop: the five `time_periods` keys
   are parsed in dict insertion order for every aurora type, then the
   record for the requested type is built (its scalar subscripts raising
   KeyError when missing). -/
def mkAurora (t : AuroraType) (el : Json) : Except PyError AuroraRecord :=
  match parseTimeField el ("issue_time") with
  | .error e => .error e
  | .ok issue_time =>
  match parseTimeField el ("start_date") with
  | .error e => .error e
  | .ok start_date =>
  match parseTimeField el ("end_date") with
  | .error e => .error e
  | .ok end_date =>
  match parseTimeField el ("start_time") with
  | .error e => .error e
  | .ok start_time =>
  match parseTimeField el ("valid_until") with
  | .error e => .error e
  | .ok valid_until =>
  match t with
  | .outlook =>
    match getKey el ("cause") with
    | .error e => .error e
    | .ok cause =>
    match getKey el ("k_aus") with
    | .error e => .error e
    | .ok k_aus =>
    match getKey el ("lat_band") with
    | .error e => .error e
    | .ok lat_band =>
    match getKey el ("comments") with
    | .error e => .error e
    | .ok comments =>
      .ok (.outlook ⟨issue_time, start_date, end_date, cause, k_aus,
        lat_band, comments⟩)
  | .watch =>
    match getKey el ("cause") with
    | .error e => .error e
    | .ok cause =>
    match getKey el ("k_aus") with
    | .error e => .error e
    | .ok k_aus =>
    match getKey el ("lat_band") with
    | .error e => .error e
    | .ok lat_band =>
    match getKey el ("comments") with
    | .error e => .error e
    | .ok comments =>
      .ok (.watch ⟨issue_time, start_date, end_date, cause, k_aus,
        lat_band, comments⟩)
  | .alert =>
    match getKey el ("k_aus") with
    | .error e => .error e
    | .ok k_aus =>
    match getKey el ("lat_band") with
    | .error e => .error e
    | .ok lat_band =>
    match getKey el ("description") with
    | .error e => .error e
    | .ok description =>
      .ok (.alert ⟨start_time, valid_until, k_aus, lat_band, description⟩)

/- A Python `for` loop that appends one record per element, stopping at the
   first raised exception. -/
def mapElems (f : Json → Except PyError α) : List Json → Except PyError (List α)
  | [] => .ok []
  | x :: xs =>
    match f x with
    | .error e => .error e
    | .ok r =>
      match mapElems f xs with
      | .error e => .error e
      | .ok rs => .ok (r :: rs)

/- Shared tail of every endpoint: `if data := response.json()["data"]:`
   iterates a truthy `data` (iterating a non-list is out of the data model
   and raises TypeError), a falsy `data` returns `[]`. -/
def mapData (f : Json → Except PyError α) (data : Json) :
    Except PyError (List α) :=
  if data.truthy then
    match data with
    | .arr elems => mapElems f elems
    | _ => .error .typeError
  else .ok []

def _get_aurora (t : AuroraType) (r : Response) :
    Except PyError (List AuroraRecord) :=
  match getData r with
  | .error e => .error e
  | .ok data => mapData (mkAurora t) data

def get_aurora_outlook (r : Response) := _get_aurora .outlook r

def get_aurora_watch (r : Response) := _get_aurora .watch r

def get_aurora_alert (r : Response) := _get_aurora .alert r

/-! ### `get_mag_alert` (lines 207-243) -/

/- One iteration of `get_mag_alert`'s loop over `("start_time",
   "valid_until")`: only the full format is tried; a ValueError from
   `strptime` is NOT caught and propagates; only KeyError is caught, storing
   `None` in the element. -/
def magAlertTime (el : Json) (key : String) : Except PyError TimeField :=
  match el.lookupField key with
  | .error e => .error e
  | .ok none => .ok .pyNone
  | .ok (some (.str s)) =>
    match strptimeFull s with
    | some d => .ok (.parsed d)
    | none => .error .valueError
  | .ok (some _) => .error .typeError

def mkMagAlert (el : Json) : Except PyError MagAlert :=
  match magAlertTime el ("start_time") with
  | .error e => .error e
  | .ok start_time =>
  match magAlertTime el ("valid_until") with
  | .error e => .error e
  | .ok valid_until =>
  match getKey el ("g_scale") with
  | .error e => .error e
  | .ok g_scale =>
  match getKey el ("description") with
  | .error e => .error e
  | .ok description =>
    .ok ⟨start_time, valid_until, g_scale, description⟩

def get_mag_alert (r : Response) : Except PyError (List MagAlert) :=
  match getData r with
  | .error e => .error e
  | .ok data => mapData mkMagAlert data

/-! ### `get_mag_warning` (lines 245-307) -/

/- One iteration of `get_mag_warning`'s `time_periods` loop: full format,
   date-only fallback, and a caught KeyError stores `None`. -/
def magWarningTime (el : Json) (key : String) : Except PyError TimeField :=
  match el.lookupField key with
  | .error e => .error e
  | .ok none => .ok .pyNone
  | .ok (some (.str s)) =>
    match strptimeFull s with
    | some d => .ok (.parsed d)
    | none =>
      match strptimeDate s with
      | some d => .ok (.parsed d)
      | none => .error .valueError
  | .ok (some _) => .error .typeError

/- One element of the `days` list comprehension (lines 288-295):
   `{datetime.strptime(day_period["date"], "%Y-%m-%d"): day_period["forecast"]}`.
   Only the date-only format is tried; missing `date` or `forecast` keys
   raise KeyError; an unparsable date raises ValueError; none are caught. -/
def activityStep (e : Json) : Except PyError (DateTime × Json) :=
  match getKey e ("date") with
  | .error err => .error err
  | .ok (.str s) =>
    match strptimeDate s with
    | none => .error .valueError
    | some d =>
      match getKey e ("forecast") with
      | .error err => .error err
      | .ok f => .ok (d, f)
  | .ok _ => .error .typeError

/- The `days` comprehension over `mag_warning["activity"]`, in input order. -/
def parseActivity : List Json → Except PyError (List (DateTime × Json))
  | [] => .ok []
  | e :: rest =>
    match activityStep e with
    | .error err => .error err
    | .ok p =>
      match parseActivity rest with
      | .error err => .error err
      | .ok ps => .ok (p :: ps)

def mkMagWarning (el : Json) : Except PyError MagWarning :=
  match magWarningTime el ("issue_time") with
  | .error e => .error e
  | .ok issue_time =>
  match magWarningTime el ("start_date") with
  | .error e => .error e
  | .ok start_date =>
  match magWarningTime el ("end_date") with
  | .error e => .error e
  | .ok end_date =>
  match getKey el ("activity") with
  | .error e => .error e
  | .ok activityJson =>
  match activityJson with
  | .arr entries =>
    (match parseActivity entries with
    | .error e => .error e
    | .ok days =>
    match getKey el ("cause") with
    | .error e => .error e
    | .ok cause =>
    match getKey el ("comments") with
    | .error e => .error e
    | .ok comments =>
      .ok ⟨issue_time, start_date, end_date, cause, days, comments⟩)
  | _ => .error .typeError

def get_mag_warning (r : Response) : Except PyError (List MagWarning) :=
  match getData r with
  | .error e => .error e
  | .ok data => mapData mkMagWarning data

/-! ### `_get_index` (lines 309-419) and its wrappers -/

inductive IndexType where
  | aIndex | kIndex | dstIndex
deriving DecidableEq

/- A `start` / `end` argument: a `datetime` object or a string. -/
inductive TimeArg where
  | dt : DateTime → TimeArg
  | str : String → TimeArg

/- Lines 342-364: a datetime argument is serialized with
   `"%Y-%m-%d %H:%M:%S"`; a non-empty string argument must be accepted by
   `strptime` with that same format or `ValueError` is raised (the string is
   passed on unchanged when it parses). -/
def checkTimeArg : TimeArg → Except PyError String
  | .dt d => .ok (strftimeFull d)
  | .str s =>
    if s = "" then .ok s
    else
      match strptimeFull s with
      | some _ => .ok s
      | none => .error .valueError

/- Lines 384-388: for `a-index` and `dst-index` the element list is
   `response.json()["data"][0]`; for `k-index` it is `data` itself
   (`data[0]` on an empty list would raise IndexError, unreachable because
   `data` was checked truthy). -/
def selectIndexData (t : IndexType) (data : Json) : Except PyError Json :=
  match t with
  | .aIndex | .dstIndex =>
    match data with
    | .arr (first :: _) => .ok first
    | .arr [] => .error .indexError
    | _ => .error .typeError
  | .kIndex => .ok data

/- `datetime.strptime(index_data[key], "%Y-%m-%d %H:%M:%S")`: a missing key
   raises KeyError, a failed parse ValueError; neither is caught. -/
def indexTime (el : Json) (key : String) : Except PyError DateTime :=
  match getKey el key with
  | .error e => .error e
  | .ok (.str s) =>
    match strptimeFull s with
    | some d => .ok d
    | none => .error .valueError
  | .ok _ => .error .typeError

def mkIndexRecord (t : IndexType) (el : Json) : Except PyError IndexRecord :=
  match t with
  | .kIndex =>
    match indexTime el ("valid_time") with
    | .error e => .error e
    | .ok valid_time =>
    match indexTime el ("analysis_time") with
    | .error e => .error e
    | .ok analysis_time =>
    match getKey el ("index") with
    | .error e => .error e
    | .ok ix => .ok (.k ⟨valid_time, analysis_time, ix⟩)
  | .aIndex =>
    match indexTime el ("valid_time") with
    | .error e => .error e
    | .ok valid_time =>
    match getKey el ("index") with
    | .error e => .error e
    | .ok ix => .ok (.a ⟨valid_time, ix⟩)
  | .dstIndex =>
    match indexTime el ("valid_time") with
    | .error e => .error e
    | .ok valid_time =>
    match getKey el ("index") with
    | .error e => .error e
    | .ok ix => .ok (.dst ⟨valid_time, ix⟩)

/- `_get_index`: the purely local start/end validation of lines 342-364 runs
   first; only then is the POST issued (the `location` argument only enters
   the request body).  The response the transport would return is the final
   argument, so a validation failure yields the same error whatever that
   response would have been. -/
def _get_index (t : IndexType) (start end_ : TimeArg) (location : String)
    (r : Response) : Except PyError (List IndexRecord) :=
  match checkTimeArg start with
  | .error e => .error e
  | .ok _ =>
  match checkTimeArg end_ with
  | .error e => .error e
  | .ok _ =>
  match getData r with
  | .error e => .error e
  | .ok data =>
  if data.truthy then
    match selectIndexData t data with
    | .error e => .error e
    | .ok selected =>
      match selected with
      | .arr elems => mapElems (mkIndexRecord t) elems
      | _ => .error .typeError
  else .ok []

def get_a_index (start end_ : TimeArg) (r : Response) :=
  _get_index .aIndex start end_ ("Australian region") r

def get_k_index (start end_ : TimeArg) (location : Option String)
    (r : Response) :=
  match location with
  | none => _get_index .kIndex start end_ ("Australian region") r
  | some loc => _get_index .kIndex start end_ loc r

def get_dst_index (start end_ : TimeArg) (r : Response) :=
  _get_index .dstIndex start end_ ("Australian region") r

/-! ### Construction and key verification (lines 43-81) -/

/- `requests.Response.raise_for_status()`: raises HTTPError exactly for
   client-error (4xx) and server-error (5xx) status codes. -/
def raise_for_status (code : Nat) : Except PyError Unit :=
  if 400 ≤ code ∧ code < 600 then .error (.httpStatusError code) else .ok ()

/- `_verify_api_key`: the probe POST to the k-index endpoint, a 403 raising
   ValueError ("please pass a valid API key"), any other 4xx/5xx raising via
   `raise_for_status`, otherwise returning the key unchanged. -/
def _verify_api_key (api_key : String) (probe : Response) :
    Except PyError String :=
  if probe.status_code = 403 then .error .valueError
  else
    match raise_for_status probe.status_code with
    | .error e => .error e
    | .ok _ => .ok api_key

structure SpaceWeather where
  api_key : String

/- `SpaceWeather.__init__`: stores `_verify_api_key(api_key)` as the
   client's credential. -/
def SpaceWeather.init (api_key : String) (probe : Response) :
    Except PyError SpaceWeather :=
  match _verify_api_key api_key probe with
  | .error e => .error e
  | .ok key => .ok ⟨key⟩

/-! ### The spec's literal timestamp format

`specExactTimestampFormat` transcribes the claim's words "exactly match
YYYY-MM-DD HH:mm:ss": nineteen characters, digits at the digit positions
(zero-padded two-digit fields), the literal separators in between.  It is
the spec-side definition to compare against the source-side
`strptimeFull`. -/
def specExactTimestampFormat (s : String) : Bool :=
  match s.toList with
  | [y1, y2, y3, y4, h1, mo1, mo2, h2, d1, d2, sp, hh1, hh2, c1, mi1, mi2,
      c2, s1, s2] =>
    decide (isDigitChar y1 ∧ isDigitChar y2 ∧ isDigitChar y3 ∧
      isDigitChar y4 ∧ h1 = ('-') ∧ isDigitChar mo1 ∧ isDigitChar mo2 ∧
      h2 = ('-') ∧ isDigitChar d1 ∧ isDigitChar d2 ∧ sp = (' ') ∧
      isDigitChar hh1 ∧ isDigitChar hh2 ∧ c1 = (':') ∧ isDigitChar mi1 ∧
      isDigitChar mi2 ∧ c2 = (':') ∧ isDigitChar s1 ∧ isDigitChar s2)
  | _ => false

/-! ### Round-trip lemmas for the request format -/

theorem isDigitChar_digitChar (n : Nat) (h : n < 10) :
    isDigitChar (digitChar n) := by
  interval_cases n <;> decide

theorem digitVal_digitChar (n : Nat) (h : n < 10) :
    digitVal (digitChar n) = n := by
  interval_cases n <;> decide

theorem isSpaceChar_digitChar (n : Nat) (h : n < 10) :
    ¬ isSpaceChar (digitChar n) := by
  interval_cases n <;> decide

theorem parseYear_pad4 (y : Nat) (h : y ≤ 9999) (rest : List Char) :
    parseYear (pad4 y ++ rest) = some (y, rest) := by
  have h0 : y / 1000 % 10 < 10 := Nat.mod_lt _ (by norm_num)
  have h1 : y / 100 % 10 < 10 := Nat.mod_lt _ (by norm_num)
  have h2 : y / 10 % 10 < 10 := Nat.mod_lt _ (by norm_num)
  have h3 : y % 10 < 10 := Nat.mod_lt _ (by norm_num)
  simp only [pad4, List.cons_append, List.nil_append, parseYear]
  rw [if_pos ⟨isDigitChar_digitChar _ h0, isDigitChar_digitChar _ h1,
    isDigitChar_digitChar _ h2, isDigitChar_digitChar _ h3⟩]
  rw [digitVal_digitChar _ h0, digitVal_digitChar _ h1,
    digitVal_digitChar _ h2, digitVal_digitChar _ h3]
  have hsum : 1000 * (y / 1000 % 10) + 100 * (y / 100 % 10) +
      10 * (y / 10 % 10) + y % 10 = y := by omega
  rw [hsum]

theorem parseMonth_pad2 (m : Nat) (h1 : 1 ≤ m) (h2 : m ≤ 12)
    (rest : List Char) : parseMonth (pad2 m ++ rest) = some (m, rest) := by
  interval_cases m <;> rfl

theorem parseDay_pad2 (d : Nat) (h1 : 1 ≤ d) (h2 : d ≤ 31)
    (rest : List Char) : parseDay (pad2 d ++ rest) = some (d, rest) := by
  interval_cases d <;> rfl

theorem parseHour_pad2 (h : Nat) (h2 : h ≤ 23) (rest : List Char) :
    parseHour (pad2 h ++ rest) = some (h, rest) := by
  interval_cases h <;> rfl

theorem parseMinute_pad2 (m : Nat) (h2 : m ≤ 59) (rest : List Char) :
    parseMinute (pad2 m ++ rest) = some (m, rest) := by
  interval_cases m <;> rfl

theorem parseSecond_pad2 (s : Nat) (h2 : s ≤ 59) (rest : List Char) :
    parseSecond (pad2 s ++ rest) = some (s, rest) := by
  interval_cases s <;> rfl

theorem parseSecond_pad2_nil (s : Nat) (h2 : s ≤ 59) :
    parseSecond (pad2 s) = some (s, []) := by
  have h := parseSecond_pad2 s h2 []
  simpa using h

theorem parseLit_cons (c : Char) (rest : List Char) :
    parseLit c (c :: rest) = some rest := by
  simp [parseLit]

theorem skipSpaces_nospace (c : Char) (l : List Char)
    (h : ¬ isSpaceChar c) : skipSpaces (c :: l) = c :: l := by
  simp [skipSpaces, h]

theorem parseSpaces_pad2 (n : Nat) (l : List Char) :
    parseSpaces ((' ') :: (pad2 n ++ l)) = some (pad2 n ++ l) := by
  have hd : n / 10 % 10 < 10 := Nat.mod_lt _ (by norm_num)
  simp only [pad2, List.cons_append, parseSpaces]
  rw [if_pos (by decide)]
  rw [skipSpaces_nospace _ _ (isSpaceChar_digitChar _ hd)]

theorem daysInMonth_le_31 (y m : Nat) : daysInMonth y m ≤ 31 := by
  unfold daysInMonth; split_ifs <;> norm_num

theorem natDigitsCore_small (fuel n : Nat) (h : n < 10) :
    natDigitsCore fuel n = [digitChar n] := by
  cases fuel with
  | zero => rfl
  | succ f => simp [natDigitsCore, h]

/- On four-digit years the unpadded `%Y` output coincides with the
   zero-padded four digits. -/
theorem natDigits_eq_pad4 (y : Nat) (h1 : 1000 ≤ y) (h2 : y ≤ 9999) :
    natDigits y = pad4 y := by
  obtain ⟨f, rfl⟩ : ∃ f, y = ((f + 1) + 1) + 1 := ⟨y - 3, by omega⟩
  have e1 : ¬ ((f + 1) + 1) + 1 < 10 := by omega
  have e2 : ¬ (((f + 1) + 1) + 1) / 10 < 10 := by omega
  have e3 : ¬ (((f + 1) + 1) + 1) / 10 / 10 < 10 := by omega
  have e4 : (((f + 1) + 1) + 1) / 10 / 10 / 10 < 10 := by omega
  show natDigitsCore (((f + 1) + 1) + 1) (((f + 1) + 1) + 1) = _
  simp only [natDigitsCore, if_neg e1, if_neg e2, if_neg e3,
    natDigitsCore_small _ _ e4]
  have a1 : (((f + 1) + 1) + 1) / 10 / 10 / 10 =
      (((f + 1) + 1) + 1) / 1000 % 10 := by omega
  have a2 : (((f + 1) + 1) + 1) / 10 / 10 % 10 =
      (((f + 1) + 1) + 1) / 100 % 10 := by omega
  rw [a1, a2]
  simp [pad4]

theorem natDigits_two (y : Nat) (h1 : 10 ≤ y) (h2 : y < 100) :
    natDigits y = [digitChar (y / 10), digitChar (y % 10)] := by
  obtain ⟨f, rfl⟩ : ∃ f, y = f + 1 := ⟨y - 1, by omega⟩
  have e1 : ¬ f + 1 < 10 := by omega
  have e4 : (f + 1) / 10 < 10 := by omega
  show natDigitsCore (f + 1) (f + 1) = _
  simp only [natDigitsCore, if_neg e1, natDigitsCore_small _ _ e4]
  simp

theorem natDigits_three (y : Nat) (h1 : 100 ≤ y) (h2 : y < 1000) :
    natDigits y =
      [digitChar (y / 100), digitChar (y / 10 % 10), digitChar (y % 10)] := by
  obtain ⟨f, rfl⟩ : ∃ f, y = (f + 1) + 1 := ⟨y - 2, by omega⟩
  have e1 : ¬ (f + 1) + 1 < 10 := by omega
  have e2 : ¬ ((f + 1) + 1) / 10 < 10 := by omega
  have e4 : ((f + 1) + 1) / 10 / 10 < 10 := by omega
  show natDigitsCore ((f + 1) + 1) ((f + 1) + 1) = _
  simp only [natDigitsCore, if_neg e1, if_neg e2, natDigitsCore_small _ _ e4]
  have a1 : ((f + 1) + 1) / 10 / 10 = ((f + 1) + 1) / 100 := by omega
  rw [a1]
  simp

/- Serializing a whole-second datetime with a four-digit year and parsing
   the result with the response format is the identity. -/
theorem strptimeFull_strftimeFull (d : DateTime) (h : validDateTime d)
    (h0 : d.microsecond = 0) (hy4 : 1000 ≤ d.year) :
    strptimeFull (strftimeFull d) = some d := by
  obtain ⟨hv, hh, hmi, hs, _⟩ := h
  obtain ⟨hy1, hy2, hm1, hm2, hd1, hd2⟩ := hv
  have hd31 : d.day ≤ 31 := le_trans hd2 (daysInMonth_le_31 _ _)
  have htl : (strftimeFull d).toList =
      natDigits d.year ++ ('-') :: (pad2 d.month ++ ('-') :: (pad2 d.day ++
      (' ') :: (pad2 d.hour ++ (':') :: (pad2 d.minute ++ (':') ::
      pad2 d.second)))) := rfl
  simp only [strptimeFull, htl, natDigits_eq_pad4 _ hy4 hy2,
    parseYear_pad4 _ hy2, parseLit_cons, parseMonth_pad2 _ hm1 hm2,
    parseDay_pad2 _ hd1 hd31, parseSpaces_pad2, parseHour_pad2 _ hh,
    parseMinute_pad2 _ hmi, parseSecond_pad2_nil _ hs]
  rw [if_pos ⟨⟨hy1, hy2, hm1, hm2, hd1, hd2⟩, hh, hmi, hs⟩]
  rw [← h0]

/- For valid years below 1000 the unpadded `%Y` output has fewer than four
   digits, so `strptime`'s four-digit `%Y` hits the first '-' early and the
   reparse fails with ValueError. -/
theorem strptimeFull_strftime_shortYear (d : DateTime) (h : validDateTime d)
    (hy : d.year < 1000) : strptimeFull (strftimeFull d) = none := by
  have htl : (strftimeFull d).toList =
      natDigits d.year ++ ('-') :: (pad2 d.month ++ ('-') :: (pad2 d.day ++
      (' ') :: (pad2 d.hour ++ (':') :: (pad2 d.minute ++ (':') ::
      pad2 d.second)))) := rfl
  have hpy : parseYear ((strftimeFull d).toList) = none := by
    rw [htl]
    rcases Nat.lt_or_ge d.year 10 with h10 | h10
    · rw [show natDigits d.year = [digitChar d.year] from
        natDigitsCore_small _ _ h10]
      simp only [pad2, List.singleton_append, List.cons_append,
        List.nil_append, parseYear]
      exact if_neg (fun hc => absurd hc.2.1 (by decide))
    · rcases Nat.lt_or_ge d.year 100 with h100 | h100
      · rw [natDigits_two _ h10 h100]
        simp only [pad2, List.cons_append, List.nil_append, parseYear]
        exact if_neg (fun hc => absurd hc.2.2.1 (by decide))
      · rw [natDigits_three _ h100 hy]
        simp only [pad2, List.cons_append, List.nil_append, parseYear]
        exact if_neg (fun hc => absurd hc.2.2.2 (by decide))
  simp only [strptimeFull, hpy]

/-! ### Concrete fixture responses -/

/- The spec's A1 aurora-outlook payload. -/
def auroraOutlookResp : Response :=
  ⟨200, some (.obj [("data", .arr [.obj [
    ("issue_time", .str ("2015-01-12 23:18:00")),
    ("start_date", .str ("2015-01-15")),
    ("end_date", .str ("2015-01-17")),
    ("cause", .str ("coronal mass ejection")),
    ("k_aus", .int 7),
    ("lat_band", .str ("mid")),
    ("comments", .str ("A large active solar region"))]])])⟩

/- The spec's A2 a-index payload. -/
def aIndexResp : Response :=
  ⟨200, some (.obj [("data", .arr [.arr [
    .obj [("index", .int 5), ("valid_time", .str ("2021-12-04 00:00:00"))],
    .obj [("index", .int 6),
      ("valid_time", .str ("2021-12-05 00:00:00"))]]])])⟩

/-- Claim C5: during construction, an HTTP 403 probe response raises the
invalid-credential ValueError; any other non-success status (4xx/5xx, the
statuses `raise_for_status` rejects) raises the request-failure HTTPError;
on success the supplied credential is stored unchanged in the client. -/
theorem claim5_thm :
    (∀ (key : String) (body : Option Json),
      SpaceWeather.init key ⟨403, body⟩ = .error .valueError) ∧
    (∀ (key : String) (code : Nat) (body : Option Json),
      400 ≤ code → code < 600 → code ≠ 403 →
      SpaceWeather.init key ⟨code, body⟩ =
        .error (.httpStatusError code)) ∧
    (∀ (key : String) (code : Nat) (body : Option Json), code < 400 →
      SpaceWeather.init key ⟨code, body⟩ = .ok ⟨key⟩) := by
  refine ⟨fun key body => rfl, fun key code body h4 h6 hne => ?_,
    fun key code body hlt => ?_⟩
  · simp only [SpaceWeather.init, _verify_api_key, raise_for_status]
    rw [if_neg hne, if_pos ⟨h4, h6⟩]
  · simp only [SpaceWeather.init, _verify_api_key, raise_for_status]
    rw [if_neg (by omega), if_neg (by omega)]

/-- Witness for C5 at statuses 403, 500 and 200. -/
theorem claim5_witness :
    SpaceWeather.init ("k") ⟨403, none⟩ = .error .valueError ∧
    SpaceWeather.init ("k") ⟨500, none⟩ =
      .error (.httpStatusError 500) ∧
    SpaceWeather.init ("k") ⟨200, none⟩ = .ok ⟨"k"⟩ :=
  ⟨claim5_thm.1 ("k") none,
    claim5_thm.2.1 ("k") 500 none (by norm_num) (by norm_num) (by norm_num),
    claim5_thm.2.2 ("k") 200 none (by norm_num)⟩

/-- Claim C6: for a-index and dst-index the element list is `data[0]` (one
level of nesting deeper), for every other index endpoint `data` itself is
the element list; and the A2 example a-index payload yields exactly two
AIndex records in input order with index values 5 and 6. -/
theorem claim6_thm :
    (∀ (x : Json) (rest : List Json),
      selectIndexData .aIndex (.arr (x :: rest)) = .ok x) ∧
    (∀ (x : Json) (rest : List Json),
      selectIndexData .dstIndex (.arr (x :: rest)) = .ok x) ∧
    (∀ data : Json, selectIndexData .kIndex data = .ok data) ∧
    get_a_index (.str "") (.str "") aIndexResp =
      .ok [.a ⟨⟨2021, 12, 4, 0, 0, 0, 0⟩, .int 5⟩,
        .a ⟨⟨2021, 12, 5, 0, 0, 0, 0⟩, .int 6⟩] :=
  ⟨fun _ _ => rfl, fun _ _ => rfl, fun _ => rfl, rfl⟩

/-- Claim C9 counterexample: a datetime carrying a nonzero microsecond
component is a valid point in time, but serializing it with the request
format and reparsing with the full response format truncates it to the
whole second, so the round trip is not the identity. -/
theorem claim9_cex :
    validDateTime ⟨2024, 1, 1, 0, 0, 0, 500000⟩ ∧
    strptimeFull (strftimeFull ⟨2024, 1, 1, 0, 0, 0, 500000⟩) ≠
      some ⟨2024, 1, 1, 0, 0, 0, 500000⟩ := by
  refine ⟨by decide, by decide⟩

/-- Claim C9 (amended): for every valid whole-second datetime (microsecond
zero) with a four-digit year (1000-9999) supplied as start, serializing it
with the request builder's "%Y-%m-%d %H:%M:%S" format and parsing the
result with the response mapper's full-timestamp format yields the
identical point in time; a datetime with a sub-second component is
truncated instead, and a valid year below 1000 is serialized unpadded by
the platform strftime and fails to reparse at all. -/
theorem claim9_thm :
    (∀ d : DateTime, validDateTime d → d.microsecond = 0 →
      1000 ≤ d.year → strptimeFull (strftimeFull d) = some d) ∧
    (∀ d : DateTime, validDateTime d → d.year < 1000 →
      strptimeFull (strftimeFull d) = none) :=
  ⟨fun d h h0 hy => strptimeFull_strftimeFull d h h0 hy,
    fun d h hy => strptimeFull_strftime_shortYear d h hy⟩

/-- Witness for C9 at 2024-01-02 03:04:05 (round trip succeeds) and at the
year-50 datetime 0050-01-01 02:03:04 (serialized as "50-01-01 02:03:04",
reparse fails). -/
theorem claim9_witness :
    (validDateTime ⟨2024, 1, 2, 3, 4, 5, 0⟩ ∧
      strptimeFull (strftimeFull ⟨2024, 1, 2, 3, 4, 5, 0⟩) =
        some ⟨2024, 1, 2, 3, 4, 5, 0⟩) ∧
    (validDateTime ⟨50, 1, 1, 2, 3, 4, 0⟩ ∧
      strptimeFull (strftimeFull ⟨50, 1, 1, 2, 3, 4, 0⟩) = none) :=
  ⟨⟨by decide, claim9_thm.1 ⟨2024, 1, 2, 3, 4, 5, 0⟩ (by decide) rfl
      (by norm_num)⟩,
    ⟨by decide, claim9_thm.2 ⟨50, 1, 1, 2, 3, 4, 0⟩ (by decide)
      (by norm_num)⟩⟩

/-! ### Status-check propagation lemmas -/

theorem getData_httpError (r : Response) (j : Json)
    (h : r.status_code ≠ 200) (hb : r.body = some j) :
    getData r = .error (.httpError j) := by
  simp only [getData, checkStatus, if_neg h, hb]

theorem getData_decodeError (r : Response) (h : r.status_code ≠ 200)
    (hb : r.body = none) : getData r = .error .jsonDecodeError := by
  simp only [getData, checkStatus, if_neg h, hb]

/-- Claim C8: for every endpoint call, a response with any non-200 status
makes the call fail with the HTTPError carrying the decoded error body when
the body is JSON-decodable (and with the decode error otherwise — the call
still fails); no non-200 response is retried or swallowed. -/
theorem claim8_thm :
    (∀ (t : AuroraType) (r : Response) (j : Json), r.status_code ≠ 200 →
      r.body = some j → _get_aurora t r = .error (.httpError j)) ∧
    (∀ (r : Response) (j : Json), r.status_code ≠ 200 → r.body = some j →
      get_mag_alert r = .error (.httpError j)) ∧
    (∀ (r : Response) (j : Json), r.status_code ≠ 200 → r.body = some j →
      get_mag_warning r = .error (.httpError j)) ∧
    (∀ (t : IndexType) (loc : String) (r : Response) (j : Json),
      r.status_code ≠ 200 → r.body = some j →
      _get_index t (.str "") (.str "") loc r = .error (.httpError j)) ∧
    (∀ (t : AuroraType) (r : Response), r.status_code ≠ 200 →
      r.body = none → _get_aurora t r = .error .jsonDecodeError) ∧
    (∀ (t : IndexType) (loc : String) (r : Response),
      r.status_code ≠ 200 → r.body = none →
      _get_index t (.str "") (.str "") loc r = .error .jsonDecodeError) := by
  have hc : checkTimeArg (.str "") = .ok "" := rfl
  refine ⟨fun t r j h hb => ?_, fun r j h hb => ?_, fun r j h hb => ?_,
    fun t loc r j h hb => ?_, fun t r h hb => ?_, fun t loc r h hb => ?_⟩
  · simp only [_get_aurora, getData_httpError r j h hb]
  · simp only [get_mag_alert, getData_httpError r j h hb]
  · simp only [get_mag_warning, getData_httpError r j h hb]
  · simp only [_get_index, hc, getData_httpError r j h hb]
  · simp only [_get_aurora, getData_decodeError r h hb]
  · simp only [_get_index, hc, getData_decodeError r h hb]

/-- Witness for C8 at a 400 response with a JSON message body and a 500
response with an undecodable body. -/
theorem claim8_witness :
    _get_aurora .outlook ⟨400, some (.obj [("message", .str ("bad"))])⟩ =
      .error (.httpError (.obj [("message", .str ("bad"))])) ∧
    get_mag_alert ⟨400, some (.obj [("message", .str ("bad"))])⟩ =
      .error (.httpError (.obj [("message", .str ("bad"))])) ∧
    get_mag_warning ⟨400, some (.obj [("message", .str ("bad"))])⟩ =
      .error (.httpError (.obj [("message", .str ("bad"))])) ∧
    _get_index .kIndex (.str "") (.str "") ("Australian region")
      ⟨400, some (.obj [("message", .str ("bad"))])⟩ =
      .error (.httpError (.obj [("message", .str ("bad"))])) ∧
    _get_aurora .outlook ⟨500, none⟩ = .error .jsonDecodeError ∧
    _get_index .kIndex (.str "") (.str "") ("Australian region")
      ⟨500, none⟩ = .error .jsonDecodeError :=
  ⟨claim8_thm.1 .outlook _ _ (by norm_num) rfl,
    claim8_thm.2.1 _ _ (by norm_num) rfl,
    claim8_thm.2.2.1 _ _ (by norm_num) rfl,
    claim8_thm.2.2.2.1 .kIndex _ _ _ (by norm_num) rfl,
    claim8_thm.2.2.2.2.1 .outlook _ (by norm_num) rfl,
    claim8_thm.2.2.2.2.2 .kIndex _ _ (by norm_num) rfl⟩

/-- Claim C3 counterexample: a 200 response whose top-level `data` field is
entirely absent does not return an empty sequence — the subscript
`response.json()["data"]` raises KeyError and the call fails. -/
theorem claim3_cex :
    get_aurora_outlook ⟨200, some (.obj [("message", .str ("x"))])⟩ =
      .error .keyError := rfl

/-- Claim C3 (amended): for every endpoint, a 200 response whose `data`
field is present but empty (falsy) yields an empty sequence; a response
with the `data` key entirely absent makes the call fail with KeyError. -/
theorem claim3_thm :
    (∀ (t : AuroraType) (body data : Json),
      getKey body ("data") = .ok data → data.truthy = false →
      _get_aurora t ⟨200, some body⟩ = .ok []) ∧
    (∀ (body data : Json), getKey body ("data") = .ok data →
      data.truthy = false → get_mag_alert ⟨200, some body⟩ = .ok []) ∧
    (∀ (body data : Json), getKey body ("data") = .ok data →
      data.truthy = false → get_mag_warning ⟨200, some body⟩ = .ok []) ∧
    (∀ (t : IndexType) (loc : String) (body data : Json),
      getKey body ("data") = .ok data → data.truthy = false →
      _get_index t (.str "") (.str "") loc ⟨200, some body⟩ = .ok []) ∧
    (∀ (t : AuroraType) (body : Json), body.lookupField ("data") = .ok none →
      _get_aurora t ⟨200, some body⟩ = .error .keyError) ∧
    (∀ (t : IndexType) (loc : String) (body : Json),
      body.lookupField ("data") = .ok none →
      _get_index t (.str "") (.str "") loc ⟨200, some body⟩ =
        .error .keyError) ∧
    (∀ body : Json, body.lookupField ("data") = .ok none →
      get_mag_alert ⟨200, some body⟩ = .error .keyError) ∧
    (∀ body : Json, body.lookupField ("data") = .ok none →
      get_mag_warning ⟨200, some body⟩ = .error .keyError) := by
  have hc : checkTimeArg (.str "") = .ok "" := rfl
  have hcs : ∀ body : Json, checkStatus ⟨200, some body⟩ = .ok body :=
    fun body => rfl
  refine ⟨fun t body data hk ht => ?_, fun body data hk ht => ?_,
    fun body data hk ht => ?_, fun t loc body data hk ht => ?_,
    fun t body hk => ?_, fun t loc body hk => ?_, fun body hk => ?_,
    fun body hk => ?_⟩
  · simp only [_get_aurora, getData, hcs, hk, mapData, ht, Bool.false_eq_true,
      if_false]
  · simp only [get_mag_alert, getData, hcs, hk, mapData, ht,
      Bool.false_eq_true, if_false]
  · simp only [get_mag_warning, getData, hcs, hk, mapData, ht,
      Bool.false_eq_true, if_false]
  · simp only [_get_index, hc, getData, hcs, hk, ht, Bool.false_eq_true,
      if_false]
  · simp only [_get_aurora, getData, hcs, getKey, hk]
  · simp only [_get_index, hc, getData, hcs, getKey, hk]
  · simp only [get_mag_alert, getData, hcs, getKey, hk]
  · simp only [get_mag_warning, getData, hcs, getKey, hk]

/-- Witness for C3 at an empty `data` array and at a body with no `data`
key. -/
theorem claim3_witness :
    _get_aurora .watch ⟨200, some (.obj [("data", .arr [])])⟩ = .ok [] ∧
    get_mag_alert ⟨200, some (.obj [("data", .arr [])])⟩ = .ok [] ∧
    get_mag_warning ⟨200, some (.obj [("data", .arr [])])⟩ = .ok [] ∧
    _get_index .dstIndex (.str "") (.str "") ("Australian region")
      ⟨200, some (.obj [("data", .arr [])])⟩ = .ok [] ∧
    _get_aurora .alert ⟨200, some (.obj [("message", .str ("x"))])⟩ =
      .error .keyError ∧
    _get_index .aIndex (.str "") (.str "") ("Australian region")
      ⟨200, some (.obj [("message", .str ("x"))])⟩ = .error .keyError ∧
    get_mag_alert ⟨200, some (.obj [("message", .str ("x"))])⟩ =
      .error .keyError ∧
    get_mag_warning ⟨200, some (.obj [("message", .str ("x"))])⟩ =
      .error .keyError :=
  ⟨claim3_thm.1 .watch _ _ rfl rfl, claim3_thm.2.1 _ _ rfl rfl,
    claim3_thm.2.2.1 _ _ rfl rfl, claim3_thm.2.2.2.1 .dstIndex _ _ _ rfl rfl,
    claim3_thm.2.2.2.2.1 .alert _ rfl,
    claim3_thm.2.2.2.2.2.1 .aIndex _ _ rfl,
    claim3_thm.2.2.2.2.2.2.1 _ rfl,
    claim3_thm.2.2.2.2.2.2.2 _ rfl⟩

/-- Claim C4 counterexample: the start string "2024-1-1 0:0:0" is non-empty
and does not exactly match "YYYY-MM-DD HH:mm:ss" (its month, day, hour,
minute and second are not zero-padded), yet the call does not fail:
`strptime` accepts unpadded fields, validation passes, and the request
proceeds, here returning the empty result of an empty `data` array. -/
theorem claim4_cex :
    ("2024-1-1 0:0:0" : String) ≠ "" ∧
    specExactTimestampFormat ("2024-1-1 0:0:0") = false ∧
    strptimeFull ("2024-1-1 0:0:0") =
      some ⟨2024, 1, 1, 0, 0, 0, 0⟩ ∧
    _get_index .aIndex (.str ("2024-1-1 0:0:0")) (.str "")
      ("Australian region") ⟨200, some (.obj [("data", .arr [])])⟩ =
      .ok [] :=
  ⟨by decide, rfl, rfl, rfl⟩

/-- Claim C4 (amended): for the index calls, a caller-supplied start or end
string that is non-empty and is not accepted by `strptime` with format
"%Y-%m-%d %H:%M:%S" (a parser that also tolerates unpadded fields) makes
the call fail with the MalformedTimeRange ValueError regardless of what the
network would return — i.e. before any request is issued. -/
theorem claim4_thm :
    (∀ (t : IndexType) (e : TimeArg) (loc s : String) (r : Response),
      s ≠ "" → strptimeFull s = none →
      _get_index t (.str s) e loc r = .error .valueError) ∧
    (∀ (t : IndexType) (start : TimeArg) (loc s u : String) (r : Response),
      checkTimeArg start = .ok u → s ≠ "" → strptimeFull s = none →
      _get_index t start (.str s) loc r = .error .valueError) := by
  refine ⟨fun t e loc s r hs hf => ?_, fun t start loc s u r hu hs hf => ?_⟩
  · simp only [_get_index, checkTimeArg, if_neg hs, hf]
  · simp only [_get_index]
    rw [hu]
    simp only [checkTimeArg, if_neg hs, hf]

/-- Witness for C4 at start="2024" and end="2024" with arbitrary concrete
responses. -/
theorem claim4_witness :
    _get_index .aIndex (.str ("2024")) (.str "") ("Australian region")
      ⟨200, some (.obj [("data", .arr [])])⟩ = .error .valueError ∧
    _get_index .kIndex (.str "") (.str ("2024")) ("Australian region")
      ⟨500, none⟩ = .error .valueError :=
  ⟨claim4_thm.1 .aIndex (.str "") ("Australian region") ("2024")
      ⟨200, some (.obj [("data", .arr [])])⟩ (by decide) rfl,
    claim4_thm.2 .kIndex (.str "") ("Australian region") ("2024") ("")
      ⟨500, none⟩ rfl (by decide) rfl⟩

/-! ### Fixtures for the timestamp-policy claims -/

/- A mag-alert element whose start_time is a date-only string. -/
def magAlertDateOnlyResp : Response :=
  ⟨200, some (.obj [("data", .arr [.obj [
    ("start_time", .str ("2015-01-15")),
    ("valid_until", .str ("2015-02-07 20:45:00")),
    ("g_scale", .int 1),
    ("description", .str ("minor"))]])])⟩

/- A k-index element with no valid_time key at all. -/
def kIndexMissingTimeResp : Response :=
  ⟨200, some (.obj [("data", .arr [.obj [("index", .int 2)]])])⟩

/- An aurora-alert element with no start_time key. -/
def auroraAlertNoStartResp : Response :=
  ⟨200, some (.obj [("data", .arr [.obj [
    ("valid_until", .str ("2015-02-07 20:45:00")),
    ("k_aus", .int 6),
    ("lat_band", .str ("high")),
    ("description", .str ("Geomagnetic storm"))]])])⟩

/- A mag-warning whose two activity entries share one date. -/
def magWarningDupResp : Response :=
  ⟨200, some (.obj [("data", .arr [.obj [
    ("issue_time", .str ("2015-03-01 23:18:00")),
    ("start_date", .str ("2015-03-02")),
    ("end_date", .str ("2015-03-03")),
    ("cause", .str ("coronal hole")),
    ("activity", .arr [
      .obj [("date", .str ("2015-03-02")), ("forecast", .str ("f1"))],
      .obj [("date", .str ("2015-03-02")), ("forecast", .str ("f2"))]]),
    ("comments", .str ("c"))]])])⟩

/- A mag-warning whose activity date is in the full timestamp format. -/
def magWarningFullDateResp : Response :=
  ⟨200, some (.obj [("data", .arr [.obj [
    ("issue_time", .str ("2015-03-01 23:18:00")),
    ("start_date", .str ("2015-03-02")),
    ("end_date", .str ("2015-03-03")),
    ("cause", .str ("coronal hole")),
    ("activity", .arr [.obj [("date", .str ("2015-03-02 00:00:00")),
      ("forecast", .str ("f1"))]]),
    ("comments", .str ("c"))]])])⟩

/-- Claim C1 counterexample: a mag-alert element whose start_time is the
date-only string "2015-01-15" — which the claimed fallback format parses to
midnight — does not fall back: get_mag_alert tries only the full format and
the call fails with the strptime ValueError. -/
theorem claim1_cex :
    strptimeDate ("2015-01-15") = some ⟨2015, 1, 15, 0, 0, 0, 0⟩ ∧
    get_mag_alert magAlertDateOnlyResp = .error .valueError := ⟨rfl, rfl⟩

/-- Claim C1 (amended): the two-format policy (try "%Y-%m-%d %H:%M:%S",
fall back to "%Y-%m-%d") applies to the aurora endpoints' and mag-warning's
top-level timestamp fields, where a field unparsable by both formats fails
the call; get_mag_alert and the index endpoints parse their timestamp
fields with the full format only, so a date-only value fails the call
there; and mag-warning activity dates are parsed with the date-only format
only. -/
theorem claim1_thm :
    (∀ (el : Json) (key s : String) (d : DateTime),
      el.lookupField key = .ok (some (.str s)) → strptimeFull s = none →
      strptimeDate s = some d →
      parseTimeField el key = .ok (.parsed d) ∧
        magWarningTime el key = .ok (.parsed d)) ∧
    (∀ (el : Json) (key s : String),
      el.lookupField key = .ok (some (.str s)) → strptimeFull s = none →
      strptimeDate s = none →
      parseTimeField el key = .error .valueError ∧
        magWarningTime el key = .error .valueError) ∧
    (∀ (el : Json) (key s : String) (d : DateTime),
      el.lookupField key = .ok (some (.str s)) → strptimeFull s = none →
      strptimeDate s = some d → magAlertTime el key = .error .valueError) ∧
    (∀ (el : Json) (key s : String) (d : DateTime),
      getKey el key = .ok (.str s) → strptimeFull s = none →
      strptimeDate s = some d → indexTime el key = .error .valueError) ∧
    (∀ (e : Json) (s : String) (d : DateTime),
      getKey e ("date") = .ok (.str s) → strptimeDate s = none →
      strptimeFull s = some d → activityStep e = .error .valueError) ∧
    get_aurora_outlook auroraOutlookResp =
      .ok [.outlook ⟨.parsed ⟨2015, 1, 12, 23, 18, 0, 0⟩,
        .parsed ⟨2015, 1, 15, 0, 0, 0, 0⟩,
        .parsed ⟨2015, 1, 17, 0, 0, 0, 0⟩,
        .str ("coronal mass ejection"), .int 7, .str ("mid"),
        .str ("A large active solar region")⟩] := by
  refine ⟨fun el key s d hlk hf hd => ⟨?_, ?_⟩,
    fun el key s hlk hf hd => ⟨?_, ?_⟩,
    fun el key s d hlk hf hd => ?_, fun el key s d hk hf hd => ?_,
    fun e s d hk hd hf => ?_, rfl⟩
  · simp only [parseTimeField, hlk, hf, hd]
  · simp only [magWarningTime, hlk, hf, hd]
  · simp only [parseTimeField, hlk, hf, hd]
  · simp only [magWarningTime, hlk, hf, hd]
  · simp only [magAlertTime, hlk, hf]
  · simp only [indexTime, hk, hf]
  · simp only [activityStep, hk, hd]

/-- Witness for C1: the date-only string "2015-01-15" falls back to
midnight in the aurora and mag-warning parsers but fails the mag-alert and
index parsers; "not a date" fails both formats; the full-format string
"2015-03-02 00:00:00" fails the activity-date parser. -/
theorem claim1_witness :
    parseTimeField (.obj [("t", .str ("2015-01-15"))]) ("t") =
      .ok (.parsed ⟨2015, 1, 15, 0, 0, 0, 0⟩) ∧
    magWarningTime (.obj [("t", .str ("2015-01-15"))]) ("t") =
      .ok (.parsed ⟨2015, 1, 15, 0, 0, 0, 0⟩) ∧
    parseTimeField (.obj [("t", .str ("not a date"))]) ("t") =
      .error .valueError ∧
    magWarningTime (.obj [("t", .str ("not a date"))]) ("t") =
      .error .valueError ∧
    magAlertTime (.obj [("t", .str ("2015-01-15"))]) ("t") =
      .error .valueError ∧
    indexTime (.obj [("t", .str ("2015-01-15"))]) ("t") =
      .error .valueError ∧
    activityStep (.obj [("date", .str ("2015-03-02 00:00:00")),
      ("forecast", .str ("f"))]) = .error .valueError :=
  ⟨(claim1_thm.1 (.obj [("t", .str ("2015-01-15"))]) ("t") ("2015-01-15")
      ⟨2015, 1, 15, 0, 0, 0, 0⟩ rfl rfl rfl).1,
    (claim1_thm.1 (.obj [("t", .str ("2015-01-15"))]) ("t") ("2015-01-15")
      ⟨2015, 1, 15, 0, 0, 0, 0⟩ rfl rfl rfl).2,
    (claim1_thm.2.1 (.obj [("t", .str ("not a date"))]) ("t")
      ("not a date") rfl rfl rfl).1,
    (claim1_thm.2.1 (.obj [("t", .str ("not a date"))]) ("t")
      ("not a date") rfl rfl rfl).2,
    claim1_thm.2.2.1 (.obj [("t", .str ("2015-01-15"))]) ("t")
      ("2015-01-15") ⟨2015, 1, 15, 0, 0, 0, 0⟩ rfl rfl rfl,
    claim1_thm.2.2.2.1 (.obj [("t", .str ("2015-01-15"))]) ("t")
      ("2015-01-15") ⟨2015, 1, 15, 0, 0, 0, 0⟩ rfl rfl rfl,
    claim1_thm.2.2.2.2.1 (.obj [("date", .str ("2015-03-02 00:00:00")),
      ("forecast", .str ("f"))]) ("2015-03-02 00:00:00")
      ⟨2015, 3, 2, 0, 0, 0, 0⟩ rfl rfl rfl⟩

/-- Claim C2 counterexample: a k-index element with the valid_time key
entirely absent does not yield an absent marker — the subscript
`index_data["valid_time"]` raises KeyError and the whole call fails. -/
theorem claim2_cex :
    get_k_index (.str "") (.str "") none kIndexMissingTimeResp =
      .error .keyError := rfl

/-- Claim C2 (amended): timestamp slots of produced records hold a parsed
datetime or a sentinel, never an unparsed response string; an absent field
yields the sentinel without failing for the aurora fields (the empty-string
sentinel) and for the mag-alert/mag-warning top-level fields (None), while
the index record timestamp fields are mandatory: an absent field fails the
call with KeyError. -/
theorem claim2_thm :
    (∀ (el : Json) (key : String), el.lookupField key = .ok none →
      parseTimeField el key = .ok .emptyString) ∧
    (∀ (el : Json) (key : String), el.lookupField key = .ok none →
      magAlertTime el key = .ok .pyNone ∧
        magWarningTime el key = .ok .pyNone) ∧
    (∀ (el : Json) (key : String), el.lookupField key = .ok none →
      indexTime el key = .error .keyError) ∧
    (∀ (el : Json) (key : String) (v : TimeField),
      parseTimeField el key = .ok v →
      (∃ dd, v = .parsed dd) ∨ v = .emptyString) ∧
    (∀ (el : Json) (key : String) (v : TimeField),
      magAlertTime el key = .ok v →
      (∃ dd, v = .parsed dd) ∨ v = .pyNone) ∧
    get_aurora_alert auroraAlertNoStartResp =
      .ok [.alert ⟨.emptyString, .parsed ⟨2015, 2, 7, 20, 45, 0, 0⟩,
        .int 6, .str ("high"), .str ("Geomagnetic storm")⟩] := by
  refine ⟨fun el key hlk => ?_, fun el key hlk => ⟨?_, ?_⟩,
    fun el key hlk => ?_, fun el key v h => ?_, fun el key v h => ?_, rfl⟩
  · simp only [parseTimeField, hlk]
  · simp only [magAlertTime, hlk]
  · simp only [magWarningTime, hlk]
  · simp only [indexTime, getKey, hlk]
  · unfold parseTimeField at h
    split at h
    · exact absurd h (by simp)
    · exact Or.inr (Except.ok.inj h).symm
    · split at h
      · exact Or.inl ⟨_, (Except.ok.inj h).symm⟩
      · split at h
        · exact Or.inl ⟨_, (Except.ok.inj h).symm⟩
        · exact absurd h (by simp)
    · exact absurd h (by simp)
  · unfold magAlertTime at h
    split at h
    · exact absurd h (by simp)
    · exact Or.inr (Except.ok.inj h).symm
    · split at h
      · exact Or.inl ⟨_, (Except.ok.inj h).symm⟩
      · exact absurd h (by simp)
    · exact absurd h (by simp)

/-- Witness for C2: an element lacking the key yields the aurora
empty-string sentinel, the mag None sentinels, and the index KeyError; the
sentinel characterizations hold at a parsed field. -/
theorem claim2_witness :
    parseTimeField (.obj [("x", .int 1)]) ("t") = .ok .emptyString ∧
    magAlertTime (.obj [("x", .int 1)]) ("t") = .ok .pyNone ∧
    magWarningTime (.obj [("x", .int 1)]) ("t") = .ok .pyNone ∧
    indexTime (.obj [("x", .int 1)]) ("t") = .error .keyError ∧
    ((∃ dd, TimeField.emptyString = TimeField.parsed dd) ∨
      TimeField.emptyString = TimeField.emptyString) ∧
    ((∃ dd, TimeField.pyNone = TimeField.parsed dd) ∨
      TimeField.pyNone = TimeField.pyNone) :=
  ⟨claim2_thm.1 (.obj [("x", .int 1)]) ("t") rfl,
    (claim2_thm.2.1 (.obj [("x", .int 1)]) ("t") rfl).1,
    (claim2_thm.2.1 (.obj [("x", .int 1)]) ("t") rfl).2,
    claim2_thm.2.2.1 (.obj [("x", .int 1)]) ("t") rfl,
    claim2_thm.2.2.2.1 (.obj [("x", .int 1)]) ("t") .emptyString rfl,
    claim2_thm.2.2.2.2.1 (.obj [("x", .int 1)]) ("t") .pyNone rfl⟩

/-- Claim C7: the mag-warning activity array is mapped element-wise to an
ordered sequence of (parsed-date, forecast) pairs preserving input order
and keeping same-date duplicates; in particular a warning whose two
activity entries share a date yields both pairs, in order. -/
theorem claim7_thm :
    (∀ (entries : List Json) (g : Json → DateTime × Json),
      (∀ e ∈ entries, activityStep e = .ok (g e)) →
      parseActivity entries = .ok (entries.map g)) ∧
    get_mag_warning magWarningDupResp =
      .ok [⟨.parsed ⟨2015, 3, 1, 23, 18, 0, 0⟩,
        .parsed ⟨2015, 3, 2, 0, 0, 0, 0⟩, .parsed ⟨2015, 3, 3, 0, 0, 0, 0⟩,
        .str ("coronal hole"),
        [(⟨2015, 3, 2, 0, 0, 0, 0⟩, .str ("f1")),
          (⟨2015, 3, 2, 0, 0, 0, 0⟩, .str ("f2"))],
        .str ("c")⟩] := by
  refine ⟨fun entries g => ?_, rfl⟩
  induction entries with
  | nil => intro _; rfl
  | cons e rest ih =>
    intro h
    have he : activityStep e = .ok (g e) := h e (List.mem_cons_self e rest)
    have hrest := ih (fun x hx => h x (List.mem_cons_of_mem e hx))
    simp only [parseActivity, he, hrest, List.map_cons]

/-- Witness for C7: two identical activity entries (same date, same
forecast) are both kept, in order. -/
theorem claim7_witness :
    parseActivity [.obj [("date", .str ("2015-03-02")),
        ("forecast", .str ("f"))],
      .obj [("date", .str ("2015-03-02")), ("forecast", .str ("f"))]] =
      .ok [(⟨2015, 3, 2, 0, 0, 0, 0⟩, .str ("f")),
        (⟨2015, 3, 2, 0, 0, 0, 0⟩, .str ("f"))] := by
  have h := claim7_thm.1 [Json.obj [("date", .str ("2015-03-02")),
      ("forecast", .str ("f"))],
    .obj [("date", .str ("2015-03-02")), ("forecast", .str ("f"))]]
    (fun _ => (⟨2015, 3, 2, 0, 0, 0, 0⟩, .str ("f")))
    (fun e he => by
      rcases List.mem_cons.mp he with rfl | he2
      · rfl
      · rcases List.mem_cons.mp he2 with rfl | he3
        · rfl
        · exact absurd he3 (List.not_mem_nil e))
  simpa using h

/-- Claim C10: in get_mag_warning the date field of every activity entry is
parsed exclusively with "%Y-%m-%d": a full-format date fails the call, and
an absent date or forecast key fails the call with KeyError; no pair or
absent marker is produced in any of these cases. -/
theorem claim10_thm :
    (∀ (e : Json) (s : String) (d : DateTime),
      getKey e ("date") = .ok (.str s) → strptimeFull s = some d →
      strptimeDate s = none → activityStep e = .error .valueError) ∧
    (∀ e : Json, e.lookupField ("date") = .ok none →
      activityStep e = .error .keyError) ∧
    (∀ (e : Json) (s : String) (d : DateTime),
      getKey e ("date") = .ok (.str s) → strptimeDate s = some d →
      e.lookupField ("forecast") = .ok none →
      activityStep e = .error .keyError) ∧
    get_mag_warning magWarningFullDateResp = .error .valueError := by
  refine ⟨fun e s d hk hf hd => ?_, fun e hk => ?_,
    fun e s d hk hd hff => ?_, rfl⟩
  · simp only [activityStep, hk, hd]
  · simp only [activityStep, getKey, hk]
  · simp only [activityStep, hk, hd]
    simp only [getKey, hff]

/-- Witness for C10: an activity entry with a full-format date, one with no
date key, and one with a date but no forecast key each fail. -/
theorem claim10_witness :
    activityStep (.obj [("date", .str ("2015-03-02 00:00:00")),
      ("forecast", .str ("g"))]) = .error .valueError ∧
    activityStep (.obj [("forecast", .str ("g"))]) = .error .keyError ∧
    activityStep (.obj [("date", .str ("2015-03-02"))]) =
      .error .keyError :=
  ⟨claim10_thm.1 (.obj [("date", .str ("2015-03-02 00:00:00")),
      ("forecast", .str ("g"))]) ("2015-03-02 00:00:00")
      ⟨2015, 3, 2, 0, 0, 0, 0⟩ rfl rfl rfl,
    claim10_thm.2.1 (.obj [("forecast", .str ("g"))]) rfl,
    claim10_thm.2.2.1 (.obj [("date", .str ("2015-03-02"))])
      ("2015-03-02") ⟨2015, 3, 2, 0, 0, 0, 0⟩ rfl rfl rfl⟩
